import Mathlib

/-!
Verification of the StatCoach volleyball analysis module (`src/analysis.js`).

The module is a pure pipeline: raw box-score counts are rescaled to a fixed
set-count baseline, converted into per-metric win-probability impacts via
fixed odds ratios, classified against win/loss benchmark bands, ranked into
weaknesses and strengths, and rendered into a templated narrative.

JavaScript numbers are modelled as exact rationals wherever the source only
performs field arithmetic, and as real numbers where `Math.log` enters the
computation (the impact values).  JavaScript objects whose keys are iterated
in insertion order are modelled as association lists in the source's
insertion order, looked up with `List.lookup`.  A possibly-absent numeric
field (`totalSets`) is modelled as an `Option`.
-/

/-- Raw box-score counts for one team across one match, mirroring the field
names read by `analysis.js`.  `totalSets` may be absent in JavaScript, hence
an `Option`. -/
structure RawStats where
  totalKills : ℚ
  killAttempts : ℚ
  attackErrors : ℚ
  serviceAces : ℚ
  serviceErrors : ℚ
  receptionErrors : ℚ
  digs : ℚ
  soloBlocks : ℚ
  blockAssists : ℚ
  totalSets : Option ℚ

/-- `RESEARCH_BENCHMARKS.win` of `analysis.js`: winning-team averages. -/
def RESEARCH_BENCHMARKS_win : List (String × ℚ) :=
  [("kills", 46.9), ("errors", 14.3), ("attempts", 96.2), ("serviceAces", 6.45),
   ("serviceErrors", 16.0), ("receptionErrors", 3.71), ("digs", 31.1),
   ("soloBlocks", 1.94), ("blockAssists", 13.9), ("blockErrors", 1.24)]

/-- `RESEARCH_BENCHMARKS.loss` of `analysis.js`: losing-team averages. -/
def RESEARCH_BENCHMARKS_loss : List (String × ℚ) :=
  [("kills", 42.8), ("errors", 19.3), ("attempts", 103.0), ("serviceAces", 3.93),
   ("serviceErrors", 15.5), ("receptionErrors", 6.17), ("digs", 29.5),
   ("soloBlocks", 1.58), ("blockAssists", 10.4), ("blockErrors", 1.44)]

/-- `ODDS_RATIOS` of `analysis.js`, in the object's insertion order (the
order `for (let metric in ODDS_RATIOS)` iterates). -/
def ODDS_RATIOS : List (String × ℚ) :=
  [("kills", 1.255), ("errors", 0.921), ("attempts", 0.881), ("serviceAces", 1.338),
   ("serviceErrors", 0.992), ("receptionErrors", 0.757), ("digs", 1.152),
   ("soloBlocks", 1.257), ("blockAssists", 1.126), ("blockErrors", 0.867)]

/-- `normalizeStats(stats, sets)`: every tracked raw field multiplied by the
normalization factor `3.5 / sets`, returned as the nine-key object built by
the source, in insertion order. -/
def normalizeStats (stats : RawStats) (sets : ℚ) : List (String × ℚ) :=
  let normalizationFactor : ℚ := 3.5 / sets
  [("kills", stats.totalKills * normalizationFactor),
   ("errors", stats.attackErrors * normalizationFactor),
   ("attempts", stats.killAttempts * normalizationFactor),
   ("serviceAces", stats.serviceAces * normalizationFactor),
   ("serviceErrors", stats.serviceErrors * normalizationFactor),
   ("receptionErrors", stats.receptionErrors * normalizationFactor),
   ("digs", stats.digs * normalizationFactor),
   ("soloBlocks", stats.soloBlocks * normalizationFactor),
   ("blockAssists", stats.blockAssists * normalizationFactor)]

/-- One entry of the `impacts` object built by `calculateImpacts`: the
normalized value, the winning-team benchmark, their difference, the
percentage-point impact, and the odds ratio used.  The first four stay exact
rationals; the impact involves `Math.log` and lives in `ℝ`. -/
structure ImpactData where
  value : ℚ
  benchmark : ℚ
  deviation : ℚ
  impact : ℝ
  oddsRatio : ℚ

/-- The impact formula of `calculateImpacts`:
`deviation * Math.log(oddsRatio) * 100 / Math.log(2)`. -/
noncomputable def impactReal (deviation : ℚ) (oddsRatio : ℚ) : ℝ :=
  (deviation : ℝ) * Real.log (oddsRatio : ℝ) * 100 / Real.log 2

/-- `calculateImpacts(normalizedStats)`: for each metric of `ODDS_RATIOS`
(in insertion order) that is present in both the normalized stats and the
winning benchmarks, record value, benchmark, deviation, impact and odds
ratio. -/
noncomputable def calculateImpacts (normalizedStats : List (String × ℚ)) :
    List (String × ImpactData) :=
  ODDS_RATIOS.filterMap fun p =>
    match normalizedStats.lookup p.1, RESEARCH_BENCHMARKS_win.lookup p.1 with
    | some v, some b => some (p.1, ⟨v, b, v - b, impactReal (v - b) p.2, p.2⟩)
    | some _, none => none
    | none, _ => none

/-- JavaScript `value <= bench` where `bench` may be `undefined`
(a comparison with `undefined` is false). -/
def jsLe (value : ℚ) (bench : Option ℚ) : Bool :=
  match bench with
  | some b => value ≤ b
  | none => false

/-- JavaScript `value >= bench` where `bench` may be `undefined`. -/
def jsGe (value : ℚ) (bench : Option ℚ) : Bool :=
  match bench with
  | some b => b ≤ value
  | none => false

/-- `getPerformanceLevel(value, metric)`: classify a raw value against the
win/loss benchmark bands, with the lower-is-better direction for the five
enumerated metrics. -/
def getPerformanceLevel (value : ℚ) (metric : String) : String :=
  let winBench := RESEARCH_BENCHMARKS_win.lookup metric
  let lossBench := RESEARCH_BENCHMARKS_loss.lookup metric
  let lowerIsBetter := ["errors", "attempts", "serviceErrors", "receptionErrors", "blockErrors"]
  if metric ∈ lowerIsBetter then
    if jsLe value winBench then "excellent"
    else if jsLe value lossBench then "good"
    else "needs_improvement"
  else
    if jsGe value winBench then "excellent"
    else if jsGe value lossBench then "good"
    else "needs_improvement"

/-- A weakness record produced by `generateRecommendations`. -/
structure WeaknessRec where
  metric : String
  impact : ℝ
  value : ℚ
  benchmark : ℚ
  priority : ℝ

/-- A strength record produced by `generateRecommendations`. -/
structure StrengthRec where
  metric : String
  impact : ℝ
  value : ℚ
  benchmark : ℚ

/-- The result object of `generateRecommendations`. -/
structure Recommendations where
  weaknesses : List WeaknessRec
  strengths : List StrengthRec
  allImpacts : List (String × ImpactData)

/-- The comparator `(a, b) => Math.abs(b[1].impact) - Math.abs(a[1].impact)`
passed to the (stable) JavaScript `Array.prototype.sort`, as the total
Boolean preorder "`a` may stay before `b`": the comparator is `≤ 0` exactly
when `|b.impact| ≤ |a.impact|`. -/
noncomputable def impactLe (a b : String × ImpactData) : Bool :=
  decide (|b.2.impact| ≤ |a.2.impact|)

/-- `generateRecommendations(impacts)`: stable-sort the entries by
descending absolute impact, then take the first at most 3 entries with
impact `< -1` as weaknesses and the first at most 2 entries with impact
`> 1` as strengths. -/
noncomputable def generateRecommendations (impacts : List (String × ImpactData)) :
    Recommendations :=
  let sortedImpacts := impacts.mergeSort impactLe
  let weaknesses := (sortedImpacts.filter fun p => decide (p.2.impact < -1)).take 3
  let strengths := (sortedImpacts.filter fun p => decide (p.2.impact > 1)).take 2
  { weaknesses := weaknesses.map fun p =>
      { metric := p.1, impact := p.2.impact, value := p.2.value,
        benchmark := p.2.benchmark, priority := |p.2.impact| }
    strengths := strengths.map fun p =>
      { metric := p.1, impact := p.2.impact, value := p.2.value,
        benchmark := p.2.benchmark }
    allImpacts := sortedImpacts }

/-- `formatMetricName(metric)`: fixed metric-to-label lookup, falling back
to the raw key. -/
def formatMetricName (metric : String) : String :=
  let names : List (String × String) :=
    [("kills", "Kills"), ("errors", "Attack Errors"), ("attempts", "Attack Attempts"),
     ("serviceAces", "Service Aces"), ("serviceErrors", "Service Errors"),
     ("receptionErrors", "Reception Errors"), ("digs", "Digs"),
     ("soloBlocks", "Solo Blocks"), ("blockAssists", "Block Assists"),
     ("blockErrors", "Block Errors")]
  (names.lookup metric).getD metric

/-- Render a non-negative number of tenths as `intPart.digit`. -/
def fixedDigits (n : ℕ) : String :=
  toString (n / 10) ++ "." ++ toString (n % 10)

/-- JavaScript `Number.prototype.toFixed(1)` on an exact rational: strip the
sign, pick the integer `n` of tenths nearest to the value (ties towards the
larger `n`), and print one decimal digit. -/
def toFixed1Q (x : ℚ) : String :=
  if x < 0 then "-" ++ fixedDigits (Int.floor (10 * -x + 1/2)).toNat
  else fixedDigits (Int.floor (10 * x + 1/2)).toNat

/-- JavaScript `Number.prototype.toFixed(1)` on a real value. -/
noncomputable def toFixed1R (x : ℝ) : String :=
  if x < 0 then "-" ++ fixedDigits (Int.floor (10 * -x + 1/2)).toNat
  else fixedDigits (Int.floor (10 * x + 1/2)).toNat

/-- JavaScript `String.prototype.includes`. -/
def jsIncludes (s pat : String) : Bool :=
  decide (pat.data <:+: s.data)

/-- The "Top Practice Priorities" block of `generateInsightsText`: one
four-line paragraph per weakness, emitted only when a weakness exists. -/
noncomputable def weaknessLines (ws : List WeaknessRec) : List String :=
  if ws.length > 0 then
    "**ðŸŽ¯ Top Practice Priorities**\n" ::
    (ws.enum.flatMap fun p =>
      let metricName := formatMetricName p.2.metric
      let impactPercent := toFixed1R |p.2.impact|
      let orPercent := match ODDS_RATIOS.lookup p.2.metric with
        | some orValue => toFixed1Q |(1 - orValue) * 100|
        | none => "NaN"
      ["**Priority " ++ toString (p.1 + 1) ++ ": " ++ metricName ++ "**",
       "Your " ++ toFixed1Q p.2.value ++ " vs winning average of " ++ toFixed1Q p.2.benchmark,
       "Impact: " ++ impactPercent ++ "% reduction in win probability",
       "Research shows each " ++ metricName.toLower ++ " changes win odds by " ++
         orPercent ++ "%\n"])
  else []

/-- The "Areas of Strength" block of `generateInsightsText`, emitted only
when a strength exists. -/
noncomputable def strengthLines (ss : List StrengthRec) : List String :=
  if ss.length > 0 then
    "**âœ… Areas of Strength**\n" ::
    (ss.flatMap fun s =>
      let metricName := formatMetricName s.metric
      ["**" ++ metricName ++ ":** " ++ toFixed1Q s.value ++ " (winning avg: " ++
         toFixed1Q s.benchmark ++ ")",
       "Contributing +" ++ toFixed1R s.impact ++ "% to win probability\n"])
  else []

/-- The bullet lines of the "Recommended Practice Focus" block: chosen by
the single top-ranked weakness's metric name through the source's
if/else-if chain; empty when there is no weakness or no branch matches. -/
def practiceFocusLines (ws : List WeaknessRec) : List String :=
  match ws with
  | [] => []
  | topWeakness :: _ =>
    if topWeakness.metric = "receptionErrors" then
      ["â€¢ Serve-receive drills with pressure situations",
       "â€¢ Individual passing technique work",
       "â€¢ Communication and coverage patterns"]
    else if topWeakness.metric = "serviceAces" then
      ["â€¢ Aggressive serving practice with target zones",
       "â€¢ Risk/reward analysis for different serve types",
       "â€¢ Situational serving strategy"]
    else if topWeakness.metric = "attempts" then
      ["â€¢ Shot selection and decision-making drills",
       "â€¢ High-percentage attack patterns",
       "â€¢ Reading defense and picking spots"]
    else if topWeakness.metric = "errors" then
      ["â€¢ Ball control and technique refinement",
       "â€¢ Reduce unforced errors through focused repetition",
       "â€¢ Mental approach to minimize mistakes"]
    else if topWeakness.metric = "digs" then
      ["â€¢ Defensive positioning and reading hitters",
       "â€¢ Platform control and emergency digs",
       "â€¢ Transition from defense to offense"]
    else if jsIncludes topWeakness.metric "Block" then
      ["â€¢ Blocking footwork and timing",
       "â€¢ Reading opponent tendencies",
       "â€¢ Team blocking coordination"]
    else []

/-- The header line of the "Recommended Practice Focus" block, which the
source pushes unconditionally. -/
def practiceFocusHeader : String := "**ðŸ Recommended Practice Focus**\n"

/-- All eighteen practice-focus bullet strings of the six fixed templates. -/
def allPracticeFocusBullets : List String :=
  ["â€¢ Serve-receive drills with pressure situations",
   "â€¢ Individual passing technique work",
   "â€¢ Communication and coverage patterns",
   "â€¢ Aggressive serving practice with target zones",
   "â€¢ Risk/reward analysis for different serve types",
   "â€¢ Situational serving strategy",
   "â€¢ Shot selection and decision-making drills",
   "â€¢ High-percentage attack patterns",
   "â€¢ Reading defense and picking spots",
   "â€¢ Ball control and technique refinement",
   "â€¢ Reduce unforced errors through focused repetition",
   "â€¢ Mental approach to minimize mistakes",
   "â€¢ Defensive positioning and reading hitters",
   "â€¢ Platform control and emergency digs",
   "â€¢ Transition from defense to offense",
   "â€¢ Blocking footwork and timing",
   "â€¢ Reading opponent tendencies",
   "â€¢ Team blocking coordination"]

/-- `generateInsightsText(stats, impacts, recommendations)` as the list of
strings pushed onto `insights`, in order (the source returns their
`'\n'`-join). -/
noncomputable def insightsLines (stats : RawStats) (impacts : List (String × ImpactData))
    (recommendations : Recommendations) : List String :=
  let totalImpact : ℝ := impacts.foldl (fun sum p => sum + p.2.impact) 0
  ["**Performance Analysis Based on NCAA Research**\n"]
  ++ [if totalImpact > 5 then
        "Your statistics profile suggests strong performance aligned with winning teams from NCAA Division I research.\n"
      else if totalImpact < -5 then
        "Your statistics profile shows several areas below winning benchmarks. Focus on the priorities below for maximum improvement.\n"
      else
        "Your statistics show a mixed profile with both strengths and areas for improvement.\n"]
  ++ weaknessLines recommendations.weaknesses
  ++ strengthLines recommendations.strengths
  ++ ["**ðŸ“Š Key Research Findings**\n",
      "â€¢ Service aces have the strongest positive impact (+33.8% per ace)",
      "â€¢ Reception errors have the strongest negative impact (-24.3% per error)",
      "â€¢ More attack attempts actually hurt performance - efficiency over volume",
      "â€¢ Both solo blocks and block assists significantly improve win probability\n"]
  ++ [practiceFocusHeader]
  ++ practiceFocusLines recommendations.weaknesses

/-- `generateInsightsText` proper: the newline-join of `insightsLines`. -/
noncomputable def generateInsightsText (stats : RawStats) (impacts : List (String × ImpactData))
    (recommendations : Recommendations) : String :=
  String.intercalate "\n" (insightsLines stats impacts recommendations)

/-- The set count `analyzeGame` passes to `normalizeStats`:
`stats.totalSets || 3`, i.e. `3` exactly when `totalSets` is absent or `0`
(the falsy numeric value). -/
def effectiveSets (stats : RawStats) : ℚ :=
  match stats.totalSets with
  | none => 3
  | some t => if t = 0 then 3 else t

/-- JavaScript `stats.totalSets > 0` where `totalSets` may be absent. -/
def jsPosOpt (o : Option ℚ) : Bool :=
  match o with
  | some t => 0 < t
  | none => false

/-- The display-metrics summary computed by `analyzeGame`, every division
guarded by its denominator check. -/
structure DisplayMetrics where
  killEfficiency : ℚ
  acesPerSet : ℚ
  blocksPerSet : ℚ
  digsPerSet : ℚ
  receptionErrorRate : ℚ
  attackErrorRate : ℚ

/-- The `metrics` object built at the end of `analyzeGame`. -/
def displayMetrics (stats : RawStats) : DisplayMetrics :=
  { killEfficiency :=
      if 0 < stats.killAttempts then stats.totalKills / stats.killAttempts * 100 else 0
    acesPerSet :=
      if jsPosOpt stats.totalSets then stats.serviceAces / (stats.totalSets.getD 0) else 0
    blocksPerSet :=
      if jsPosOpt stats.totalSets then
        (stats.soloBlocks + stats.blockAssists) / (stats.totalSets.getD 0) else 0
    digsPerSet :=
      if jsPosOpt stats.totalSets then stats.digs / (stats.totalSets.getD 0) else 0
    receptionErrorRate :=
      if jsPosOpt stats.totalSets then stats.receptionErrors / (stats.totalSets.getD 0) else 0
    attackErrorRate :=
      if jsPosOpt stats.totalSets then stats.attackErrors / (stats.totalSets.getD 0) else 0 }

/-- The aggregate result object of `analyzeGame`. -/
structure AnalysisResult where
  normalized : List (String × ℚ)
  impacts : List (String × ImpactData)
  recommendations : Recommendations
  insightsText : String
  metrics : DisplayMetrics

/-- `analyzeGame(stats)`: normalize, compute impacts, rank, render, and
attach the display metrics. -/
noncomputable def analyzeGame (stats : RawStats) : AnalysisResult :=
  let normalized := normalizeStats stats (effectiveSets stats)
  let impacts := calculateImpacts normalized
  let recommendations := generateRecommendations impacts
  let insightsText := generateInsightsText stats impacts recommendations
  { normalized := normalized, impacts := impacts, recommendations := recommendations,
    insightsText := insightsText, metrics := displayMetrics stats }

/-! ## General helper lemmas -/

/-- A successful association-list lookup means the key occurs among the keys. -/
theorem mem_keys_of_lookup {β : Type} {l : List (String × β)} {a : String} {v : β}
    (h : l.lookup a = some v) : a ∈ l.map Prod.fst := by
  induction l with
  | nil => simp [List.lookup] at h
  | cons p t ih =>
    by_cases hk : a == p.1
    · have he : a = p.1 := by simpa using hk
      simp [he]
    · have hk' : (a == p.1) = false := by simpa using hk
      simp only [List.lookup, hk'] at h
      simpa using Or.inr (ih h)

/-- In a list whose keys are distinct, two entries with the same key agree. -/
theorem nodup_keys_eq {β : Type} {l : List (String × β)} (h : (l.map Prod.fst).Nodup)
    {m : String} {d d' : β} (h1 : (m, d) ∈ l) (h2 : (m, d') ∈ l) : d = d' := by
  induction l with
  | nil => simp at h1
  | cons p t ih =>
    simp only [List.map_cons, List.nodup_cons] at h
    rcases List.mem_cons.mp h1 with e1 | m1
    · rcases List.mem_cons.mp h2 with e2 | m2
      · rw [← e1] at e2
        exact congrArg Prod.snd e2.symm
      · exfalso
        exact h.1 (by simpa [← e1] using List.mem_map_of_mem Prod.fst m2)
    · rcases List.mem_cons.mp h2 with e2 | m2
      · exfalso
        exact h.1 (by simpa [← e2] using List.mem_map_of_mem Prod.fst m1)
      · exact ih h.2 m1 m2

/-- Two strings differing in their first character differ. -/
theorem string_ne_of_head {s t : String} (h : s.data.head? ≠ t.data.head?) : s ≠ t :=
  fun he => h (he ▸ rfl)

/-! ## Real-logarithm bounds via integer powers

`Real.log` of a rational constant is bracketed between rational multiples of
`Real.log 2` by checking an integer-power inequality, which `norm_num` can
settle exactly. -/

theorem log_two_pos : 0 < Real.log 2 := Real.log_pos (by norm_num)

theorem nmul_log_le {c : ℚ} (m n : ℕ) (hc : 0 < c) (h : (2:ℚ)^m ≤ c^n) :
    (m:ℝ) * Real.log 2 ≤ (n:ℝ) * Real.log (c:ℝ) := by
  have hcR : (0:ℝ) < (c:ℝ) := by exact_mod_cast hc
  have h2 : ((2:ℝ))^m ≤ (c:ℝ)^n := by exact_mod_cast h
  have l1 : Real.log ((2:ℝ)^m) ≤ Real.log ((c:ℝ)^n) :=
    (Real.log_le_log_iff (by positivity) (by positivity)).mpr h2
  rwa [Real.log_pow, Real.log_pow] at l1

theorem nmul_log_ge {c : ℚ} (m n : ℕ) (hc : 0 < c) (h : c^n ≤ (2:ℚ)^m) :
    (n:ℝ) * Real.log (c:ℝ) ≤ (m:ℝ) * Real.log 2 := by
  have hcR : (0:ℝ) < (c:ℝ) := by exact_mod_cast hc
  have h2 : ((c:ℝ))^n ≤ (2:ℝ)^m := by exact_mod_cast h
  have l1 : Real.log ((c:ℝ)^n) ≤ Real.log ((2:ℝ)^m) :=
    (Real.log_le_log_iff (by positivity) (by positivity)).mpr h2
  rwa [Real.log_pow, Real.log_pow] at l1

theorem impactReal_pos {dev c : ℚ} (hdev : 0 < dev) (hc : 1 < c) :
    0 < impactReal dev c := by
  have h1 : (0:ℝ) < (dev:ℝ) := by exact_mod_cast hdev
  have h2 : 0 < Real.log (c:ℝ) := Real.log_pos (by exact_mod_cast hc)
  unfold impactReal
  positivity

theorem impactReal_neg {dev c : ℚ} (hdev : 0 < dev) (hc0 : 0 < c) (hc : c < 1) :
    impactReal dev c < 0 := by
  have h1 : (0:ℝ) < (dev:ℝ) := by exact_mod_cast hdev
  have h2 : Real.log (c:ℝ) < 0 :=
    Real.log_neg (by exact_mod_cast hc0) (by exact_mod_cast hc)
  unfold impactReal
  have : (dev:ℝ) * Real.log (c:ℝ) * 100 < 0 := by nlinarith
  exact div_neg_of_neg_of_pos this log_two_pos

theorem impactReal_ge_of {dev c : ℚ} (m n : ℕ) (hn : 0 < n) (hdev : 0 ≤ dev)
    (hc : 0 < c) (h : (2:ℚ)^m ≤ c^n) :
    (dev:ℝ) * m / n * 100 ≤ impactReal dev c := by
  have hdevR : (0:ℝ) ≤ (dev:ℝ) := by exact_mod_cast hdev
  have hnR : (0:ℝ) < (n:ℝ) := by exact_mod_cast hn
  have hlog : (m:ℝ)/(n:ℝ) * Real.log 2 ≤ Real.log (c:ℝ) := by
    have := nmul_log_le m n hc h
    rw [div_mul_eq_mul_div, div_le_iff₀ hnR]
    linarith
  unfold impactReal
  rw [le_div_iff₀ log_two_pos]
  have key := mul_le_mul_of_nonneg_left hlog hdevR
  calc ((dev:ℝ) * m / n * 100 * Real.log 2)
      = ((dev:ℝ) * ((m:ℝ) / n * Real.log 2)) * 100 := by ring
    _ ≤ ((dev:ℝ) * Real.log (c:ℝ)) * 100 := by linarith
    _ = (dev:ℝ) * Real.log (c:ℝ) * 100 := by ring

theorem impactReal_le_of {dev c : ℚ} (m n : ℕ) (hn : 0 < n) (hdev : 0 ≤ dev)
    (hc : 0 < c) (h : c^n ≤ (2:ℚ)^m) :
    impactReal dev c ≤ (dev:ℝ) * m / n * 100 := by
  have hdevR : (0:ℝ) ≤ (dev:ℝ) := by exact_mod_cast hdev
  have hnR : (0:ℝ) < (n:ℝ) := by exact_mod_cast hn
  have hlog : Real.log (c:ℝ) ≤ (m:ℝ)/(n:ℝ) * Real.log 2 := by
    have := nmul_log_ge m n hc h
    rw [div_mul_eq_mul_div, le_div_iff₀ hnR]
    linarith
  unfold impactReal
  rw [div_le_iff₀ log_two_pos]
  have key := mul_le_mul_of_nonneg_left hlog hdevR
  calc (dev:ℝ) * Real.log (c:ℝ) * 100
      = ((dev:ℝ) * Real.log (c:ℝ)) * 100 := by ring
    _ ≤ ((dev:ℝ) * ((m:ℝ) / n * Real.log 2)) * 100 := by linarith
    _ = (dev:ℝ) * (m:ℝ) / n * 100 * Real.log 2 := by ring

theorem impactReal_strictMono {d d' c : ℚ} (h : d < d') (hc : 1 < c) :
    impactReal d c < impactReal d' c := by
  have hL : 0 < Real.log (c:ℝ) := Real.log_pos (by exact_mod_cast hc)
  have hd : (d:ℝ) < (d':ℝ) := by exact_mod_cast h
  unfold impactReal
  have key : (d:ℝ) * Real.log (c:ℝ) * 100 < (d':ℝ) * Real.log (c:ℝ) * 100 := by nlinarith
  exact div_lt_div_of_pos_right key log_two_pos

theorem impactReal_strictAnti {d d' c : ℚ} (h : d < d') (hc0 : 0 < c) (hc : c < 1) :
    impactReal d' c < impactReal d c := by
  have hL : Real.log (c:ℝ) < 0 :=
    Real.log_neg (by exact_mod_cast hc0) (by exact_mod_cast hc)
  have hd : (d:ℝ) < (d':ℝ) := by exact_mod_cast h
  unfold impactReal
  have key : (d':ℝ) * Real.log (c:ℝ) * 100 < (d:ℝ) * Real.log (c:ℝ) * 100 := by nlinarith
  exact div_lt_div_of_pos_right key log_two_pos

/-! ## Concrete inputs used by witnesses and counterexamples -/

/-- The end-to-end example stats of the spec (50 kills on 100 attempts, 8
aces, 3 sets, ...). -/
def exampleStats : RawStats :=
  { totalKills := 50, killAttempts := 100, attackErrors := 10, serviceAces := 8,
    serviceErrors := 12, receptionErrors := 2, digs := 35, soloBlocks := 3,
    blockAssists := 15, totalSets := some 3 }

/-- A raw-stats record with a negative `totalSets`. -/
def negSetsStats : RawStats :=
  { totalKills := 0, killAttempts := 0, attackErrors := 0, serviceAces := 0,
    serviceErrors := 0, receptionErrors := 0, digs := 0, soloBlocks := 0,
    blockAssists := 0, totalSets := some (-1) }

/-- C2: for every raw stats and set count `s > 0`, every field of
`normalizeStats stats s` is the corresponding raw field times `3.5 / s`
(kills from `totalKills`, errors from `attackErrors`, attempts from
`killAttempts`, and so on), with no clamping, and at `s = 3.5` the
normalization is the identity on every field. -/
theorem normalizeStats_scale_law (stats : RawStats) (s : ℚ) (hs : 0 < s) :
    (normalizeStats stats s).lookup "kills" = some (stats.totalKills * (3.5 / s)) ∧
    (normalizeStats stats s).lookup "errors" = some (stats.attackErrors * (3.5 / s)) ∧
    (normalizeStats stats s).lookup "attempts" = some (stats.killAttempts * (3.5 / s)) ∧
    (normalizeStats stats s).lookup "serviceAces" = some (stats.serviceAces * (3.5 / s)) ∧
    (normalizeStats stats s).lookup "serviceErrors" = some (stats.serviceErrors * (3.5 / s)) ∧
    (normalizeStats stats s).lookup "receptionErrors" = some (stats.receptionErrors * (3.5 / s)) ∧
    (normalizeStats stats s).lookup "digs" = some (stats.digs * (3.5 / s)) ∧
    (normalizeStats stats s).lookup "soloBlocks" = some (stats.soloBlocks * (3.5 / s)) ∧
    (normalizeStats stats s).lookup "blockAssists" = some (stats.blockAssists * (3.5 / s)) ∧
    normalizeStats stats 3.5 =
      [("kills", stats.totalKills), ("errors", stats.attackErrors),
       ("attempts", stats.killAttempts), ("serviceAces", stats.serviceAces),
       ("serviceErrors", stats.serviceErrors), ("receptionErrors", stats.receptionErrors),
       ("digs", stats.digs), ("soloBlocks", stats.soloBlocks),
       ("blockAssists", stats.blockAssists)] := by
  refine ⟨rfl, rfl, rfl, rfl, rfl, rfl, rfl, rfl, rfl, ?_⟩
  norm_num [normalizeStats]

/-- Witness for C2 at the example stats and `s = 3`. -/
theorem normalizeStats_scale_law_witness :
    (normalizeStats exampleStats 3).lookup "serviceAces" =
      some (exampleStats.serviceAces * (3.5 / 3)) :=
  (normalizeStats_scale_law exampleStats 3 (by norm_num)).2.2.2.1

/-- C7 (amended): `analyzeGame` normalizes with `stats.totalSets || 3`: the
default `3` is substituted exactly when `totalSets` is absent or `0` (not
when it is negative), the substituted set count is never `0` (so the
normalization factor never divides by zero), and it is positive whenever
`totalSets` is absent or non-negative. -/
theorem analyzeGame_sets_policy (stats : RawStats) :
    (analyzeGame stats).normalized = normalizeStats stats (effectiveSets stats) ∧
    (stats.totalSets = none → effectiveSets stats = 3) ∧
    (stats.totalSets = some 0 → effectiveSets stats = 3) ∧
    (∀ t : ℚ, stats.totalSets = some t → t ≠ 0 → effectiveSets stats = t) ∧
    effectiveSets stats ≠ 0 ∧
    ((∀ t : ℚ, stats.totalSets = some t → 0 ≤ t) → 0 < effectiveSets stats) := by
  refine ⟨rfl, ?_, ?_, ?_, ?_, ?_⟩
  · intro h
    simp [effectiveSets, h]
  · intro h
    simp [effectiveSets, h]
  · intro t h ht
    simp [effectiveSets, h, ht]
  · cases h : stats.totalSets with
    | none => simp [effectiveSets, h]
    | some t =>
      by_cases ht : t = 0 <;> simp [effectiveSets, h, ht]
  · intro hnn
    cases h : stats.totalSets with
    | none => simp [effectiveSets, h]
    | some t =>
      by_cases ht : t = 0
      · simp [effectiveSets, h, ht]
      · have := hnn t h
        have : 0 < t := lt_of_le_of_ne this (Ne.symm ht)
        simpa [effectiveSets, h, ht] using this

/-- C7 counterexample: with `totalSets = -1` (which is `≤ 0` but truthy in
JavaScript) the default is not substituted: `analyzeGame` normalizes with
the negative set count `-1`, and the normalization factor `3.5 / -1` is
negative, not positive. -/
theorem analyzeGame_sets_policy_cex :
    negSetsStats.totalSets = some (-1) ∧
    effectiveSets negSetsStats = -1 ∧
    (analyzeGame negSetsStats).normalized = normalizeStats negSetsStats (-1) ∧
    ¬ (0 < effectiveSets negSetsStats) ∧ (3.5 / (-1) : ℚ) < 0 := by
  refine ⟨rfl, by norm_num [effectiveSets, negSetsStats], ?_, ?_, by norm_num⟩
  · show normalizeStats negSetsStats (effectiveSets negSetsStats) = _
    norm_num [effectiveSets, negSetsStats]
  · norm_num [effectiveSets, negSetsStats]

/-- C9: for every input, the impacts object contains exactly the nine keys
produced by `normalizeStats` — `blockErrors` is never among them although it
is present in both the odds-ratio table and the winning benchmarks. -/
theorem calculateImpacts_keys (stats : RawStats) (s : ℚ) :
    ((calculateImpacts (normalizeStats stats s)).map Prod.fst)
      = ["kills", "errors", "attempts", "serviceAces", "serviceErrors",
         "receptionErrors", "digs", "soloBlocks", "blockAssists"] ∧
    "blockErrors" ∈ ODDS_RATIOS.map Prod.fst ∧
    "blockErrors" ∈ RESEARCH_BENCHMARKS_win.map Prod.fst ∧
    "blockErrors" ∉ ((calculateImpacts (normalizeStats stats s)).map Prod.fst) ∧
    ∀ m ∈ (calculateImpacts (normalizeStats stats s)).map Prod.fst,
      m ∈ ["kills", "errors", "attempts", "serviceAces", "serviceErrors",
           "receptionErrors", "digs", "soloBlocks", "blockAssists"] := by
  have hkeys : ((calculateImpacts (normalizeStats stats s)).map Prod.fst)
      = ["kills", "errors", "attempts", "serviceAces", "serviceErrors",
         "receptionErrors", "digs", "soloBlocks", "blockAssists"] := rfl
  refine ⟨hkeys, by decide, by decide, ?_, ?_⟩
  · rw [hkeys]
    decide
  · rw [hkeys]
    intro m hm
    exact hm

/-- C1: for every metric present in both the normalized stats and the
odds-ratio table, the impacts entry exists, its deviation is the normalized
value minus the winning benchmark, its impact is
`deviation * ln(oddsRatio) * 100 / ln 2`, and the impact is exactly `0`
whenever the value equals the benchmark. -/
theorem calculateImpacts_formula (stats : RawStats) (s : ℚ) (m : String)
    (oddsRatio v : ℚ)
    (hor : ODDS_RATIOS.lookup m = some oddsRatio)
    (hv : (normalizeStats stats s).lookup m = some v) :
    ∃ b : ℚ, RESEARCH_BENCHMARKS_win.lookup m = some b ∧
      (calculateImpacts (normalizeStats stats s)).lookup m =
        some ⟨v, b, v - b, impactReal (v - b) oddsRatio, oddsRatio⟩ ∧
      (v = b → impactReal (v - b) oddsRatio = 0) := by
  have hmem : m ∈ (normalizeStats stats s).map Prod.fst := mem_keys_of_lookup hv
  have hkeys : (normalizeStats stats s).map Prod.fst
      = ["kills", "errors", "attempts", "serviceAces", "serviceErrors",
         "receptionErrors", "digs", "soloBlocks", "blockAssists"] := rfl
  rw [hkeys] at hmem
  fin_cases hmem <;>
    (have hveq := Option.some.inj hv
     have horeq := Option.some.inj hor
     subst hveq
     subst horeq
     exact ⟨_, rfl, rfl, fun hw => by simp [impactReal, hw]⟩)

/-- Witness for C1 at the example stats, `s = 3`, metric `serviceAces`. -/
theorem calculateImpacts_formula_witness :
    ∃ b : ℚ, RESEARCH_BENCHMARKS_win.lookup "serviceAces" = some b ∧
      (calculateImpacts (normalizeStats exampleStats 3)).lookup "serviceAces" =
        some ⟨exampleStats.serviceAces * (3.5 / 3), b,
          exampleStats.serviceAces * (3.5 / 3) - b,
          impactReal (exampleStats.serviceAces * (3.5 / 3) - b) 1.338, 1.338⟩ ∧
      (exampleStats.serviceAces * (3.5 / 3) = b →
        impactReal (exampleStats.serviceAces * (3.5 / 3) - b) 1.338 = 0) :=
  calculateImpacts_formula exampleStats 3 "serviceAces" 1.338
    (exampleStats.serviceAces * (3.5 / 3)) rfl rfl

/-- The classifier on a metric outside the lower-is-better list compares
with `>=` against the two benchmarks. -/
theorem getPerformanceLevel_eq_higher (m : String) (wq lq : ℚ)
    (hm : m ∉ ["errors", "attempts", "serviceErrors", "receptionErrors", "blockErrors"])
    (hw : RESEARCH_BENCHMARKS_win.lookup m = some wq)
    (hl : RESEARCH_BENCHMARKS_loss.lookup m = some lq) (v : ℚ) :
    getPerformanceLevel v m =
      if wq ≤ v then "excellent" else if lq ≤ v then "good" else "needs_improvement" := by
  by_cases h1 : wq ≤ v <;> by_cases h2 : lq ≤ v <;>
    simp [getPerformanceLevel, jsGe, jsLe, hm, hw, hl, h1, h2]

/-- The classifier on a lower-is-better metric compares with `<=` against
the two benchmarks. -/
theorem getPerformanceLevel_eq_lower (m : String) (wq lq : ℚ)
    (hm : m ∈ ["errors", "attempts", "serviceErrors", "receptionErrors", "blockErrors"])
    (hw : RESEARCH_BENCHMARKS_win.lookup m = some wq)
    (hl : RESEARCH_BENCHMARKS_loss.lookup m = some lq) (v : ℚ) :
    getPerformanceLevel v m =
      if v ≤ wq then "excellent" else if v ≤ lq then "good" else "needs_improvement" := by
  by_cases h1 : v ≤ wq <;> by_cases h2 : v ≤ lq <;>
    simp [getPerformanceLevel, jsGe, jsLe, hm, hw, hl, h1, h2]

/-- The classifier as one case split: direction chosen by membership in the
lower-is-better list, then the two benchmark comparisons. -/
theorem getPerformanceLevel_cases (m : String) (wq lq v : ℚ)
    (hw : RESEARCH_BENCHMARKS_win.lookup m = some wq)
    (hl : RESEARCH_BENCHMARKS_loss.lookup m = some lq) :
    getPerformanceLevel v m =
      if m ∈ ["errors", "attempts", "serviceErrors", "receptionErrors", "blockErrors"] then
        (if v ≤ wq then "excellent" else if v ≤ lq then "good" else "needs_improvement")
      else
        (if wq ≤ v then "excellent" else if lq ≤ v then "good" else "needs_improvement") := by
  by_cases hm : m ∈ ["errors", "attempts", "serviceErrors", "receptionErrors", "blockErrors"]
  · by_cases h1 : v ≤ wq <;> by_cases h2 : v ≤ lq <;>
      simp [getPerformanceLevel, jsLe, jsGe, hw, hl, hm, h1, h2]
  · by_cases h1 : wq ≤ v <;> by_cases h2 : lq ≤ v <;>
      simp [getPerformanceLevel, jsLe, jsGe, hw, hl, hm, h1, h2]

/-- C6 (amended): for every metric known to the benchmark tables the
classifier yields one of the three labels; a value equal to the win
benchmark yields `excellent`; for every metric except `serviceErrors` a
value equal to the loss benchmark, or strictly between the two benchmarks,
yields `good`; and `excellent` is reached exactly at-or-below the win
benchmark for lower-is-better metrics and at-or-above it for the others.
(For `serviceErrors` the loss benchmark 15.5 is below the win benchmark
16.0, so the loss benchmark itself classifies as `excellent`.) -/
theorem getPerformanceLevel_bands (m : String) (v wq lq : ℚ)
    (hm : m ∈ RESEARCH_BENCHMARKS_win.map Prod.fst)
    (hw : RESEARCH_BENCHMARKS_win.lookup m = some wq)
    (hl : RESEARCH_BENCHMARKS_loss.lookup m = some lq) :
    getPerformanceLevel v m ∈ ["excellent", "good", "needs_improvement"] ∧
    (v = wq → getPerformanceLevel v m = "excellent") ∧
    (m ≠ "serviceErrors" → v = lq → getPerformanceLevel v m = "good") ∧
    (m ≠ "serviceErrors" → min wq lq < v → v < max wq lq →
      getPerformanceLevel v m = "good") ∧
    (m ∈ ["errors", "attempts", "serviceErrors", "receptionErrors", "blockErrors"] →
      (getPerformanceLevel v m = "excellent" ↔ v ≤ wq)) ∧
    (m ∉ ["errors", "attempts", "serviceErrors", "receptionErrors", "blockErrors"] →
      (getPerformanceLevel v m = "excellent" ↔ wq ≤ v)) := by
  have hshape := getPerformanceLevel_cases m wq lq v hw hl
  have hkeys : RESEARCH_BENCHMARKS_win.map Prod.fst
      = ["kills", "errors", "attempts", "serviceAces", "serviceErrors",
         "receptionErrors", "digs", "soloBlocks", "blockAssists", "blockErrors"] := rfl
  rw [hkeys] at hm
  fin_cases hm <;>
  · have hweq := Option.some.inj hw
    have hleq := Option.some.inj hl
    subst hweq
    subst hleq
    first
    | rw [if_pos (by decide)] at hshape
    | rw [if_neg (by decide)] at hshape
    refine ⟨?_, ?_, ?_, ?_, ?_, ?_⟩
    · rw [hshape]
      split_ifs <;> simp
    · intro hv
      rw [hshape, if_pos (by norm_num [hv])]
    · intro hne hv
      first
      | exact absurd rfl hne
      | rw [hshape, if_neg (by norm_num [hv]), if_pos (by norm_num [hv])]
    · intro hne h1 h2
      rw [min_def] at h1
      rw [max_def] at h2
      norm_num at h1 h2
      first
      | exact absurd rfl hne
      | rw [hshape, if_neg (by linarith), if_pos (by linarith)]
    · intro hmem
      first
      | exact absurd hmem (by decide)
      | (rw [hshape]
         split_ifs with a b <;>
           first
           | simp [a]
           | exact ⟨fun h => absurd h (by decide), fun h => absurd h a⟩)
    · intro hmem
      first
      | exact absurd (by decide) hmem
      | (rw [hshape]
         split_ifs with a b <;>
           first
           | simp [a]
           | exact ⟨fun h => absurd h (by decide), fun h => absurd h a⟩)

/-- Witness for C6 at `receptionErrors` and the loss benchmark `6.17`
(which indeed classifies as `good`, as the claim's particular instance
states). -/
theorem getPerformanceLevel_bands_witness :
    getPerformanceLevel 6.17 "receptionErrors" = "good" :=
  (getPerformanceLevel_bands "receptionErrors" 6.17 3.71 6.17
    (by decide) rfl rfl).2.2.1 (by decide) rfl

/-- C6 counterexample: for `serviceErrors`, whose loss benchmark (15.5) is
better than its win benchmark (16.0), a value exactly equal to the loss
benchmark classifies as `excellent`, not `good`. -/
theorem getPerformanceLevel_loss_bench_cex :
    RESEARCH_BENCHMARKS_loss.lookup "serviceErrors" = some 15.5 ∧
    RESEARCH_BENCHMARKS_win.lookup "serviceErrors" = some 16.0 ∧
    getPerformanceLevel 15.5 "serviceErrors" = "excellent" ∧
    getPerformanceLevel 15.5 "serviceErrors" ≠ "good" := by
  have he : getPerformanceLevel 15.5 "serviceErrors" = "excellent" := by
    rw [getPerformanceLevel_cases "serviceErrors" 16.0 15.5 15.5 rfl rfl,
      if_pos (by decide), if_pos (by norm_num)]
  refine ⟨rfl, rfl, he, ?_⟩
  rw [he]
  decide

/-- The impact recorded for metric `m` when `stats` are normalized with set
count `s` and fed to the impact calculator. -/
noncomputable def metricImpact (stats : RawStats) (s : ℚ) (m : String) : Option ℝ :=
  ((calculateImpacts (normalizeStats stats s)).lookup m).map ImpactData.impact

/-- C8: with the set count fixed and positive, increasing the raw value
feeding a metric with odds ratio above 1 (kills, serviceAces, digs,
soloBlocks, blockAssists) strictly increases that metric's impact, and
increasing the raw value feeding a metric with odds ratio below 1 (errors,
attempts, serviceErrors, receptionErrors) strictly decreases it. -/
theorem impacts_monotone (stats : RawStats) (s x y : ℚ) (hs : 0 < s) (hxy : x < y) :
    (∃ i j, metricImpact {stats with totalKills := x} s "kills" = some i ∧
      metricImpact {stats with totalKills := y} s "kills" = some j ∧ i < j) ∧
    (∃ i j, metricImpact {stats with serviceAces := x} s "serviceAces" = some i ∧
      metricImpact {stats with serviceAces := y} s "serviceAces" = some j ∧ i < j) ∧
    (∃ i j, metricImpact {stats with digs := x} s "digs" = some i ∧
      metricImpact {stats with digs := y} s "digs" = some j ∧ i < j) ∧
    (∃ i j, metricImpact {stats with soloBlocks := x} s "soloBlocks" = some i ∧
      metricImpact {stats with soloBlocks := y} s "soloBlocks" = some j ∧ i < j) ∧
    (∃ i j, metricImpact {stats with blockAssists := x} s "blockAssists" = some i ∧
      metricImpact {stats with blockAssists := y} s "blockAssists" = some j ∧ i < j) ∧
    (∃ i j, metricImpact {stats with attackErrors := x} s "errors" = some i ∧
      metricImpact {stats with attackErrors := y} s "errors" = some j ∧ j < i) ∧
    (∃ i j, metricImpact {stats with killAttempts := x} s "attempts" = some i ∧
      metricImpact {stats with killAttempts := y} s "attempts" = some j ∧ j < i) ∧
    (∃ i j, metricImpact {stats with serviceErrors := x} s "serviceErrors" = some i ∧
      metricImpact {stats with serviceErrors := y} s "serviceErrors" = some j ∧ j < i) ∧
    (∃ i j, metricImpact {stats with receptionErrors := x} s "receptionErrors" = some i ∧
      metricImpact {stats with receptionErrors := y} s "receptionErrors" = some j ∧ j < i) := by
  have hfac : (0:ℚ) < 3.5 / s := div_pos (by norm_num) hs
  have hdev : ∀ b : ℚ, x * (3.5 / s) - b < y * (3.5 / s) - b := fun b =>
    sub_lt_sub_right (mul_lt_mul_of_pos_right hxy hfac) b
  refine ⟨⟨_, _, rfl, rfl, ?_⟩, ⟨_, _, rfl, rfl, ?_⟩, ⟨_, _, rfl, rfl, ?_⟩,
    ⟨_, _, rfl, rfl, ?_⟩, ⟨_, _, rfl, rfl, ?_⟩, ⟨_, _, rfl, rfl, ?_⟩,
    ⟨_, _, rfl, rfl, ?_⟩, ⟨_, _, rfl, rfl, ?_⟩, ⟨_, _, rfl, rfl, ?_⟩⟩
  · exact impactReal_strictMono (hdev 46.9) (by norm_num)
  · exact impactReal_strictMono (hdev 6.45) (by norm_num)
  · exact impactReal_strictMono (hdev 31.1) (by norm_num)
  · exact impactReal_strictMono (hdev 1.94) (by norm_num)
  · exact impactReal_strictMono (hdev 13.9) (by norm_num)
  · exact impactReal_strictAnti (hdev 14.3) (by norm_num) (by norm_num)
  · exact impactReal_strictAnti (hdev 96.2) (by norm_num) (by norm_num)
  · exact impactReal_strictAnti (hdev 16.0) (by norm_num) (by norm_num)
  · exact impactReal_strictAnti (hdev 3.71) (by norm_num) (by norm_num)

/-- Witness for C8: the kills conjunct at the example stats, one set,
raising kills from 0 to 1. -/
theorem impacts_monotone_witness :
    ∃ i j, metricImpact {exampleStats with totalKills := 0} 1 "kills" = some i ∧
      metricImpact {exampleStats with totalKills := 1} 1 "kills" = some j ∧ i < j :=
  (impacts_monotone exampleStats 1 0 1 (by norm_num) (by norm_num)).1

/-- The sort predicate is transitive. -/
theorem impactLe_trans : ∀ a b c : String × ImpactData,
    impactLe a b → impactLe b c → impactLe a c := by
  intro a b c hab hbc
  simp only [impactLe, decide_eq_true_eq] at hab hbc ⊢
  exact le_trans hbc hab

/-- The sort predicate is total. -/
theorem impactLe_total : ∀ a b : String × ImpactData,
    (impactLe a b || impactLe b a) = true := by
  intro a b
  simp only [impactLe, Bool.or_eq_true, decide_eq_true_eq]
  exact le_total _ _

/-- C3: `generateRecommendations` sorts all entries by descending absolute
impact (a permutation of the input); the weaknesses are exactly the first at
most 3 sorted entries with impact strictly below `-1` and the strengths the
first at most 2 sorted entries with impact strictly above `1`; the lists
never exceed lengths 3 and 2; and (for an impacts mapping, i.e. distinct
keys) no metric appears in both lists. -/
theorem generateRecommendations_spec (impacts : List (String × ImpactData))
    (h : (impacts.map Prod.fst).Nodup) :
    (generateRecommendations impacts).allImpacts.Perm impacts ∧
    (generateRecommendations impacts).allImpacts.Pairwise
      (fun a b => |b.2.impact| ≤ |a.2.impact|) ∧
    (generateRecommendations impacts).weaknesses =
      (((generateRecommendations impacts).allImpacts.filter
          fun p => decide (p.2.impact < -1)).take 3).map (fun p =>
        { metric := p.1, impact := p.2.impact, value := p.2.value,
          benchmark := p.2.benchmark, priority := |p.2.impact| }) ∧
    (generateRecommendations impacts).strengths =
      (((generateRecommendations impacts).allImpacts.filter
          fun p => decide (p.2.impact > 1)).take 2).map (fun p =>
        { metric := p.1, impact := p.2.impact, value := p.2.value,
          benchmark := p.2.benchmark }) ∧
    (generateRecommendations impacts).weaknesses.length ≤ 3 ∧
    (generateRecommendations impacts).strengths.length ≤ 2 ∧
    (∀ m, m ∈ (generateRecommendations impacts).weaknesses.map WeaknessRec.metric →
      m ∉ (generateRecommendations impacts).strengths.map StrengthRec.metric) := by
  refine ⟨List.mergeSort_perm impacts impactLe, ?_, rfl, rfl, ?_, ?_, ?_⟩
  · exact (List.sorted_mergeSort impactLe_trans impactLe_total impacts).imp
      (fun hab => by simpa [impactLe] using hab)
  · simp only [generateRecommendations, List.length_map, List.length_take]
    exact min_le_left _ _
  · simp only [generateRecommendations, List.length_map, List.length_take]
    exact min_le_left _ _
  · intro m hw hst
    simp only [generateRecommendations, List.map_map, List.mem_map,
      Function.comp] at hw hst
    obtain ⟨p, hp, hpm⟩ := hw
    obtain ⟨q, hq, hqm⟩ := hst
    have hp' := List.mem_filter.mp (List.mem_of_mem_take hp)
    have hq' := List.mem_filter.mp (List.mem_of_mem_take hq)
    have hpi : p ∈ impacts := ((List.mergeSort_perm impacts impactLe).mem_iff).mp hp'.1
    have hqi : q ∈ impacts := ((List.mergeSort_perm impacts impactLe).mem_iff).mp hq'.1
    have hplt : p.2.impact < -1 := by simpa using hp'.2
    have hqgt : q.2.impact > 1 := by simpa using hq'.2
    have hpm' : (m, p.2) ∈ impacts := by
      have : p = (m, p.2) := by
        rw [← hpm]
      rwa [this] at hpi
    have hqm' : (m, q.2) ∈ impacts := by
      have : q = (m, q.2) := by
        rw [← hqm]
      rwa [this] at hqi
    have := nodup_keys_eq h hpm' hqm'
    rw [this] at hplt
    linarith

/-- A two-entry impacts mapping used by witnesses. -/
def smallImpacts : List (String × ImpactData) :=
  [("a", { value := 0, benchmark := 0, deviation := 0, impact := 2, oddsRatio := 0 }),
   ("b", { value := 0, benchmark := 0, deviation := 0, impact := -3, oddsRatio := 0 })]

/-- Witness for C3 at a concrete two-entry mapping with distinct keys. -/
theorem generateRecommendations_spec_witness :
    (generateRecommendations smallImpacts).weaknesses.length ≤ 3 ∧
    (generateRecommendations smallImpacts).strengths.length ≤ 2 :=
  ⟨(generateRecommendations_spec smallImpacts (by decide)).2.2.2.2.1,
   (generateRecommendations_spec smallImpacts (by decide)).2.2.2.2.2.1⟩

/-- If every impact is above `-1`, no weakness is selected. -/
theorem weaknesses_nil (impacts : List (String × ImpactData))
    (h : ∀ p ∈ impacts, -1 < p.2.impact) :
    (generateRecommendations impacts).weaknesses = [] := by
  have hf : (impacts.mergeSort impactLe).filter (fun p => decide (p.2.impact < -1)) = [] := by
    rw [List.filter_eq_nil_iff]
    intro p hp
    have := h p (List.mem_mergeSort.mp hp)
    simp only [decide_eq_true_eq]
    intro hc
    linarith
  simp [generateRecommendations, hf]

/-- If every impact is below `1`, no strength is selected. -/
theorem strengths_nil (impacts : List (String × ImpactData))
    (h : ∀ p ∈ impacts, p.2.impact < 1) :
    (generateRecommendations impacts).strengths = [] := by
  have hf : (impacts.mergeSort impactLe).filter (fun p => decide (p.2.impact > 1)) = [] := by
    rw [List.filter_eq_nil_iff]
    intro p hp
    have := h p (List.mem_mergeSort.mp hp)
    simp only [decide_eq_true_eq]
    intro hc
    linarith
  simp [generateRecommendations, hf]

/-- With no weaknesses and no strengths, the narrative is exactly the fixed
header, one of the three summary sentences, the research-findings block, and
the practice-focus header — nothing after the header. -/
theorem insightsLines_no_recs (stats : RawStats) (impacts : List (String × ImpactData))
    (recs : Recommendations) (hw : recs.weaknesses = []) (hs : recs.strengths = []) :
    ∃ smry,
      smry ∈ ["Your statistics profile suggests strong performance aligned with winning teams from NCAA Division I research.\n",
              "Your statistics profile shows several areas below winning benchmarks. Focus on the priorities below for maximum improvement.\n",
              "Your statistics show a mixed profile with both strengths and areas for improvement.\n"] ∧
      insightsLines stats impacts recs =
        ["**Performance Analysis Based on NCAA Research**\n", smry,
         "**ðŸ“Š Key Research Findings**\n",
         "â€¢ Service aces have the strongest positive impact (+33.8% per ace)",
         "â€¢ Reception errors have the strongest negative impact (-24.3% per error)",
         "â€¢ More attack attempts actually hurt performance - efficiency over volume",
         "â€¢ Both solo blocks and block assists significantly improve win probability\n",
         practiceFocusHeader] := by
  unfold insightsLines
  rw [hw, hs]
  refine ⟨_, ?_, rfl⟩
  split_ifs <;> simp

/-- C4 (amended): when every impact lies strictly between `-1` and `1`, no
weakness or strength is selected and the narrative contains no
practice-focus bullet line — nothing at all after the "Recommended Practice
Focus" header — but the header line itself is still rendered (the source
pushes it unconditionally). -/
theorem insights_no_focus_block (stats : RawStats) (impacts : List (String × ImpactData))
    (h : ∀ p ∈ impacts, -1 < p.2.impact ∧ p.2.impact < 1) :
    (generateRecommendations impacts).weaknesses = [] ∧
    (generateRecommendations impacts).strengths = [] ∧
    practiceFocusHeader ∈ insightsLines stats impacts (generateRecommendations impacts) ∧
    (insightsLines stats impacts (generateRecommendations impacts)).getLast?
      = some practiceFocusHeader ∧
    ∀ b ∈ allPracticeFocusBullets,
      b ∉ insightsLines stats impacts (generateRecommendations impacts) := by
  have hw := weaknesses_nil impacts (fun p hp => (h p hp).1)
  have hs := strengths_nil impacts (fun p hp => (h p hp).2)
  obtain ⟨smry, hsm, he⟩ := insightsLines_no_recs stats impacts _ hw hs
  refine ⟨hw, hs, ?_, ?_, ?_⟩
  · rw [he]
    simp
  · rw [he]
    rfl
  · intro b hb hmem
    rw [he] at hmem
    have hbd : b.data.head? = some 'â' := by fin_cases hb <;> rfl
    simp only [List.mem_cons, List.not_mem_nil, or_false] at hmem
    rcases hmem with hq|hq|hq|hq|hq|hq|hq|hq <;>
      try (rw [hq] at hb; exact absurd hb (by decide))
    rw [hq] at hb
    simp only [List.mem_cons, List.not_mem_nil, or_false] at hsm
    rcases hsm with e|e|e <;> (rw [e] at hb; exact absurd hb (by decide))

/-- A one-entry impacts mapping whose single impact is `0`. -/
def zeroImpacts : List (String × ImpactData) :=
  [("kills", { value := 0, benchmark := 0, deviation := 0, impact := 0, oddsRatio := 0 })]

/-- C4 counterexample: an input whose impacts all lie strictly between `-1`
and `1`, while the rendered narrative still contains the "Recommended
Practice Focus" header line. -/
theorem insights_no_focus_block_cex :
    (∀ p ∈ zeroImpacts, -1 < p.2.impact ∧ p.2.impact < 1) ∧
    practiceFocusHeader ∈
      insightsLines exampleStats zeroImpacts (generateRecommendations zeroImpacts) := by
  have h : ∀ p ∈ zeroImpacts, -1 < p.2.impact ∧ p.2.impact < 1 := by
    intro p hp
    simp only [zeroImpacts, List.mem_singleton] at hp
    rw [hp]
    norm_num
  have hw := weaknesses_nil zeroImpacts (fun p hp => (h p hp).1)
  have hs := strengths_nil zeroImpacts (fun p hp => (h p hp).2)
  obtain ⟨smry, hsm, he⟩ := insightsLines_no_recs exampleStats zeroImpacts _ hw hs
  refine ⟨h, ?_⟩
  rw [he]
  simp

/-- Appending keeps the first character of a non-empty string. -/
theorem data_append_cons {s : String} {c : Char} {cs : List Char} (t : String)
    (h : s.data = c :: cs) : (s ++ t).data = c :: (cs ++ t.data) := by
  show s.data ++ t.data = _
  rw [h]
  rfl

/-- A string whose first character is not `'â'` differs from any string
whose first character is `'â'` (every practice-focus bullet). -/
theorem ne_bullet_of_head {b s : String} {c : Char} {cs : List Char}
    (hb : b.data.head? = some 'â') (hs : s.data = c :: cs) (hc : c ≠ 'â') : s ≠ b := by
  intro he
  rw [← he, hs] at hb
  exact hc (Option.some.inj hb)

/-- No string starting with `'â'` occurs in the "Top Practice Priorities"
block: its header starts with `'*'` and each paragraph line starts with
`'*'`, `'Y'`, `'I'` or `'R'`. -/
theorem not_mem_weaknessLines (b : String) (hbd : b.data.head? = some 'â')
    (ws : List WeaknessRec) : b ∉ weaknessLines ws := by
  unfold weaknessLines
  split
  · intro hmem
    rcases List.mem_cons.mp hmem with h | h
    · rw [h] at hbd
      exact absurd hbd (by decide)
    · rw [List.mem_flatMap] at h
      obtain ⟨p, hp, hbl⟩ := h
      simp only [List.mem_cons, List.not_mem_nil, or_false] at hbl
      rcases hbl with h|h|h|h
      · exact absurd h.symm (ne_bullet_of_head hbd
          (data_append_cons _ (data_append_cons _ (data_append_cons _
            (data_append_cons _ rfl)))) (by decide))
      · exact absurd h.symm (ne_bullet_of_head hbd
          (data_append_cons _ (data_append_cons _ (data_append_cons _ rfl)))
          (by decide))
      · exact absurd h.symm (ne_bullet_of_head hbd
          (data_append_cons _ (data_append_cons _ rfl)) (by decide))
      · exact absurd h.symm (ne_bullet_of_head hbd
          (data_append_cons _ (data_append_cons _ (data_append_cons _
            (data_append_cons _ rfl)))) (by decide))
  · exact List.not_mem_nil b

/-- No string starting with `'â'` occurs in the "Areas of Strength" block:
its header and first line start with `'*'`, the other line with `'C'`. -/
theorem not_mem_strengthLines (b : String) (hbd : b.data.head? = some 'â')
    (ss : List StrengthRec) : b ∉ strengthLines ss := by
  unfold strengthLines
  split
  · intro hmem
    rcases List.mem_cons.mp hmem with h | h
    · rw [h] at hbd
      exact absurd hbd (by decide)
    · rw [List.mem_flatMap] at h
      obtain ⟨p, hp, hbl⟩ := h
      simp only [List.mem_cons, List.not_mem_nil, or_false] at hbl
      rcases hbl with h|h
      · exact absurd h.symm (ne_bullet_of_head hbd
          (data_append_cons _ (data_append_cons _ (data_append_cons _
            (data_append_cons _ (data_append_cons _ (data_append_cons _ rfl))))))
          (by decide))
      · exact absurd h.symm (ne_bullet_of_head hbd
          (data_append_cons _ (data_append_cons _ rfl)) (by decide))
  · exact List.not_mem_nil b

/-- C10: when the top-ranked weakness's metric is `kills` or
`serviceErrors`, none of the six practice-focus templates matches, so the
narrative contains the "Recommended Practice Focus" header but none of the
eighteen practice-focus bullet lines. -/
theorem insights_focus_header_no_bullets (stats : RawStats)
    (impacts : List (String × ImpactData)) (w : WeaknessRec) (rest : List WeaknessRec)
    (hw : (generateRecommendations impacts).weaknesses = w :: rest)
    (hm : w.metric = "kills" ∨ w.metric = "serviceErrors") :
    practiceFocusHeader ∈ insightsLines stats impacts (generateRecommendations impacts) ∧
    ∀ b ∈ allPracticeFocusBullets,
      b ∉ insightsLines stats impacts (generateRecommendations impacts) := by
  have hpf : practiceFocusLines ((generateRecommendations impacts).weaknesses) = [] := by
    rw [hw]
    show (if w.metric = "receptionErrors" then _
      else if w.metric = "serviceAces" then _
      else if w.metric = "attempts" then _
      else if w.metric = "errors" then _
      else if w.metric = "digs" then _
      else if jsIncludes w.metric "Block" then _ else []) = []
    rcases hm with h|h <;> rw [h] <;>
      rw [if_neg (by decide), if_neg (by decide), if_neg (by decide),
        if_neg (by decide), if_neg (by decide), if_neg (by decide)]
  have hstruct : insightsLines stats impacts (generateRecommendations impacts) =
      ["**Performance Analysis Based on NCAA Research**\n"]
      ++ [if (impacts.foldl (fun sum p => sum + p.2.impact) 0 : ℝ) > 5 then
            "Your statistics profile suggests strong performance aligned with winning teams from NCAA Division I research.\n"
          else if (impacts.foldl (fun sum p => sum + p.2.impact) 0 : ℝ) < -5 then
            "Your statistics profile shows several areas below winning benchmarks. Focus on the priorities below for maximum improvement.\n"
          else
            "Your statistics show a mixed profile with both strengths and areas for improvement.\n"]
      ++ weaknessLines (generateRecommendations impacts).weaknesses
      ++ strengthLines (generateRecommendations impacts).strengths
      ++ ["**ðŸ“Š Key Research Findings**\n",
          "â€¢ Service aces have the strongest positive impact (+33.8% per ace)",
          "â€¢ Reception errors have the strongest negative impact (-24.3% per error)",
          "â€¢ More attack attempts actually hurt performance - efficiency over volume",
          "â€¢ Both solo blocks and block assists significantly improve win probability\n"]
      ++ [practiceFocusHeader]
      ++ practiceFocusLines (generateRecommendations impacts).weaknesses := rfl
  constructor
  · rw [hstruct]
    simp
  · intro b hb hmem
    have hbd : b.data.head? = some 'â' := by fin_cases hb <;> rfl
    rw [hstruct, hpf, List.append_nil] at hmem
    rcases List.mem_append.mp hmem with h5 | hpf'
    · rcases List.mem_append.mp h5 with h4 | hr
      · rcases List.mem_append.mp h4 with h3 | hs'
        · rcases List.mem_append.mp h3 with h2 | hw'
          · rcases List.mem_append.mp h2 with h1 | hite
            · rw [List.mem_singleton] at h1
              rw [h1] at hb
              exact absurd hb (by decide)
            · rw [List.mem_singleton] at hite
              split at hite
              · rw [hite] at hb
                exact absurd hb (by decide)
              · split at hite <;> (rw [hite] at hb; exact absurd hb (by decide))
          · exact not_mem_weaknessLines b hbd _ hw'
        · exact not_mem_strengthLines b hbd _ hs'
      · simp only [List.mem_cons, List.not_mem_nil, or_false] at hr
        rcases hr with h|h|h|h|h <;> (rw [h] at hb; exact absurd hb (by decide))
    · rw [List.mem_singleton] at hpf'
      rw [hpf'] at hb
      exact absurd hb (by decide)

/-- The impacts computed for the spec's end-to-end example. -/
noncomputable def exImpacts : List (String × ImpactData) :=
  calculateImpacts (normalizeStats exampleStats 3)

/-- The example's `kills` impacts entry. -/
noncomputable def killsEntry : String × ImpactData :=
  ("kills", ⟨50 * (3.5 / 3), 46.9, 50 * (3.5 / 3) - 46.9,
    impactReal (50 * (3.5 / 3) - 46.9) 1.255, 1.255⟩)

/-- The example's `serviceAces` impacts entry. -/
noncomputable def saEntry : String × ImpactData :=
  ("serviceAces", ⟨8 * (3.5 / 3), 6.45, 8 * (3.5 / 3) - 6.45,
    impactReal (8 * (3.5 / 3) - 6.45) 1.338, 1.338⟩)

/-- The example's `digs` impacts entry. -/
noncomputable def digsEntry : String × ImpactData :=
  ("digs", ⟨35 * (3.5 / 3), 31.1, 35 * (3.5 / 3) - 31.1,
    impactReal (35 * (3.5 / 3) - 31.1) 1.152, 1.152⟩)

/-- The example impacts list, entry by entry (in `ODDS_RATIOS` order;
`blockErrors` is skipped because it is not among the normalized stats). -/
theorem exImpacts_eq : exImpacts =
    [killsEntry,
     ("errors", ⟨10 * (3.5 / 3), 14.3, 10 * (3.5 / 3) - 14.3,
       impactReal (10 * (3.5 / 3) - 14.3) 0.921, 0.921⟩),
     ("attempts", ⟨100 * (3.5 / 3), 96.2, 100 * (3.5 / 3) - 96.2,
       impactReal (100 * (3.5 / 3) - 96.2) 0.881, 0.881⟩),
     saEntry,
     ("serviceErrors", ⟨12 * (3.5 / 3), 16.0, 12 * (3.5 / 3) - 16.0,
       impactReal (12 * (3.5 / 3) - 16.0) 0.992, 0.992⟩),
     ("receptionErrors", ⟨2 * (3.5 / 3), 3.71, 2 * (3.5 / 3) - 3.71,
       impactReal (2 * (3.5 / 3) - 3.71) 0.757, 0.757⟩),
     digsEntry,
     ("soloBlocks", ⟨3 * (3.5 / 3), 1.94, 3 * (3.5 / 3) - 1.94,
       impactReal (3 * (3.5 / 3) - 1.94) 1.257, 1.257⟩),
     ("blockAssists", ⟨15 * (3.5 / 3), 13.9, 15 * (3.5 / 3) - 13.9,
       impactReal (15 * (3.5 / 3) - 13.9) 1.126, 1.126⟩)] := rfl

/-- The example's kills impact exceeds the `+1` strength threshold
(it is at least `(343/30)·(19/58)·100 ≈ 374.5`, since `2^19·200^58 ≤ 251^58`
brackets `ln 1.255` from below). -/
theorem exKills_gt_one : 1 < impactReal (50 * (3.5 / 3) - 46.9) 1.255 := by
  have h := @impactReal_ge_of (50 * (3.5 / 3) - 46.9) 1.255 19 58
    (by norm_num) (by norm_num) (by norm_num) (by norm_num)
  have h2 : (1:ℝ) < ((50 * (3.5 / 3) - 46.9 : ℚ) : ℝ) * 19 / 58 * 100 := by
    push_cast
    norm_num
  linarith

/-- The example's digs impact exceeds the `+1` strength threshold
(it is at least `(146/15)·(1/5)·100 ≈ 194.7`, since `2 ≤ 1.152^5`). -/
theorem exDigs_gt_one : 1 < impactReal (35 * (3.5 / 3) - 31.1) 1.152 := by
  have h := @impactReal_ge_of (35 * (3.5 / 3) - 31.1) 1.152 1 5
    (by norm_num) (by norm_num) (by norm_num) (by norm_num)
  have h2 : (1:ℝ) < ((35 * (3.5 / 3) - 31.1 : ℚ) : ℝ) * 1 / 5 * 100 := by
    push_cast
    norm_num
  linarith

/-- The example's serviceAces impact is positive (the normalized value
`28/3` exceeds the win benchmark `6.45` and the odds ratio exceeds 1). -/
theorem exSA_pos : 0 < impactReal (8 * (3.5 / 3) - 6.45) 1.338 :=
  impactReal_pos (by norm_num) (by norm_num)

/-- The example's serviceAces impact (at most `(173/60)·(1/2)·100 ≈ 144.2`,
since `1.338^2 ≤ 2`) is strictly below the kills impact. -/
theorem exSA_lt_exKills :
    impactReal (8 * (3.5 / 3) - 6.45) 1.338 < impactReal (50 * (3.5 / 3) - 46.9) 1.255 := by
  have h1 := @impactReal_le_of (8 * (3.5 / 3) - 6.45) 1.338 1 2
    (by norm_num) (by norm_num) (by norm_num) (by norm_num)
  have h2 := @impactReal_ge_of (50 * (3.5 / 3) - 46.9) 1.255 19 58
    (by norm_num) (by norm_num) (by norm_num) (by norm_num)
  have h3 : ((8 * (3.5 / 3) - 6.45 : ℚ) : ℝ) * 1 / 2 * 100
      < ((50 * (3.5 / 3) - 46.9 : ℚ) : ℝ) * 19 / 58 * 100 := by
    push_cast
    norm_num
  linarith

/-- The example's serviceAces impact is strictly below the digs impact. -/
theorem exSA_lt_exDigs :
    impactReal (8 * (3.5 / 3) - 6.45) 1.338 < impactReal (35 * (3.5 / 3) - 31.1) 1.152 := by
  have h1 := @impactReal_le_of (8 * (3.5 / 3) - 6.45) 1.338 1 2
    (by norm_num) (by norm_num) (by norm_num) (by norm_num)
  have h2 := @impactReal_ge_of (35 * (3.5 / 3) - 31.1) 1.152 1 5
    (by norm_num) (by norm_num) (by norm_num) (by norm_num)
  have h3 : ((8 * (3.5 / 3) - 6.45 : ℚ) : ℝ) * 1 / 2 * 100
      < ((35 * (3.5 / 3) - 31.1 : ℚ) : ℝ) * 1 / 5 * 100 := by
    push_cast
    norm_num
  linarith

/-- Three pairwise-distinct elements cannot all lie in a list of length at
most two. -/
theorem three_not_in_two {α : Type} {l : List α} (hl : l.length ≤ 2) {a b c : α}
    (hab : a ≠ b) (hac : a ≠ c) (hbc : b ≠ c)
    (ha : a ∈ l) (hb : b ∈ l) (hc : c ∈ l) : False := by
  cases l with
  | nil => simp at ha
  | cons x l1 =>
    cases l1 with
    | nil =>
      simp only [List.mem_singleton] at ha hb
      exact hab (ha.trans hb.symm)
    | cons y l2 =>
      cases l2 with
      | nil =>
        simp only [List.mem_cons, List.not_mem_nil, or_false] at ha hb hc
        rcases ha with ha|ha <;> rcases hb with hb|hb <;> rcases hc with hc|hc <;>
          first
          | exact hab (ha.trans hb.symm)
          | exact hac (ha.trans hc.symm)
          | exact hbc (hb.trans hc.symm)
      | cons z l3 =>
        simp only [List.length_cons] at hl
        omega

/-- `serviceAces` is not among the strengths for the example: both the kills
and the digs entries clear the `+1` threshold with strictly larger absolute
impact, so they fill the two strength slots first. -/
theorem sa_not_in_strengths :
    "serviceAces" ∉ ((generateRecommendations exImpacts).strengths.map StrengthRec.metric) := by
  intro hmem
  have hstr : (generateRecommendations exImpacts).strengths.map StrengthRec.metric
      = (((exImpacts.mergeSort impactLe).filter fun p => decide (p.2.impact > 1)).take 2).map
          (fun p => p.1) := by
    show ((((exImpacts.mergeSort impactLe).filter fun p => decide (p.2.impact > 1)).take 2).map
        (fun p => (⟨p.1, p.2.impact, p.2.value, p.2.benchmark⟩ : StrengthRec))).map
        StrengthRec.metric = _
    rw [List.map_map]
    rfl
  rw [hstr, List.mem_map] at hmem
  obtain ⟨p, hp, hp1⟩ := hmem
  have hpF : p ∈ (exImpacts.mergeSort impactLe).filter fun q => decide (q.2.impact > 1) :=
    List.mem_of_mem_take hp
  have hpL : p ∈ exImpacts := List.mem_mergeSort.mp (List.mem_filter.mp hpF).1
  rw [exImpacts_eq] at hpL
  simp only [List.mem_cons, List.not_mem_nil, or_false] at hpL
  have hpeq : p = saEntry := by
    rcases hpL with h|h|h|h|h|h|h|h|h <;>
      first
      | exact h
      | (rw [h] at hp1; exact absurd hp1 (by decide))
  subst hpeq
  have hkL : killsEntry ∈ exImpacts := by
    rw [exImpacts_eq]
    exact List.mem_cons_self _ _
  have hdL : digsEntry ∈ exImpacts := by
    rw [exImpacts_eq]
    simp only [List.mem_cons]
    tauto
  have hkF : killsEntry ∈ (exImpacts.mergeSort impactLe).filter
      fun q => decide (q.2.impact > 1) :=
    List.mem_filter.mpr ⟨List.mem_mergeSort.mpr hkL, decide_eq_true exKills_gt_one⟩
  have hdF : digsEntry ∈ (exImpacts.mergeSort impactLe).filter
      fun q => decide (q.2.impact > 1) :=
    List.mem_filter.mpr ⟨List.mem_mergeSort.mpr hdL, decide_eq_true exDigs_gt_one⟩
  have hFpair : ((exImpacts.mergeSort impactLe).filter
      fun q => decide (q.2.impact > 1)).Pairwise (fun a b => impactLe a b = true) :=
    (List.sorted_mergeSort impactLe_trans impactLe_total exImpacts).filter _
  have hsplit := List.take_append_drop 2
    ((exImpacts.mergeSort impactLe).filter fun q => decide (q.2.impact > 1))
  have hcross : ∀ a ∈ ((exImpacts.mergeSort impactLe).filter
        fun q => decide (q.2.impact > 1)).take 2,
      ∀ b ∈ ((exImpacts.mergeSort impactLe).filter
        fun q => decide (q.2.impact > 1)).drop 2, impactLe a b = true := by
    rw [← hsplit] at hFpair
    exact (List.pairwise_append.mp hFpair).2.2
  have habs_sa : |saEntry.2.impact| = saEntry.2.impact := abs_of_pos exSA_pos
  rw [← hsplit] at hkF hdF
  rcases List.mem_append.mp hkF with hk2 | hkD
  · rcases List.mem_append.mp hdF with hd2 | hdD
    · refine three_not_in_two ?_ ?_ ?_ ?_ hp hk2 hd2
      · rw [List.length_take]
        exact min_le_left _ _
      · intro h
        exact absurd (congrArg Prod.fst h) (by decide)
      · intro h
        exact absurd (congrArg Prod.fst h) (by decide)
      · intro h
        exact absurd (congrArg Prod.fst h) (by decide)
    · have hle := of_decide_eq_true (hcross saEntry hp digsEntry hdD)
      have habs_d : |digsEntry.2.impact| = digsEntry.2.impact :=
        abs_of_pos (lt_trans zero_lt_one exDigs_gt_one)
      rw [habs_d, habs_sa] at hle
      exact absurd hle (not_le.mpr exSA_lt_exDigs)
  · have hle := of_decide_eq_true (hcross saEntry hp killsEntry hkD)
    have habs_k : |killsEntry.2.impact| = killsEntry.2.impact :=
      abs_of_pos (lt_trans zero_lt_one exKills_gt_one)
    rw [habs_k, habs_sa] at hle
    exact absurd hle (not_le.mpr exSA_lt_exKills)

/-- C5 (amended): on the spec's example input, `analyzeGame` reports a kill
efficiency of exactly 50, normalizes serviceAces to `8 * (3.5/3) = 28/3`,
and gives serviceAces a strictly positive impact — but serviceAces does
*not* appear in the strengths list, whose two slots are taken by entries
with larger absolute impact. -/
theorem analyzeGame_example :
    (analyzeGame exampleStats).metrics.killEfficiency = 50 ∧
    (analyzeGame exampleStats).normalized.lookup "serviceAces" = some (8 * (3.5 / 3)) ∧
    (8 * (3.5 / 3) : ℚ) = 28 / 3 ∧
    (∃ d, (analyzeGame exampleStats).impacts.lookup "serviceAces" = some d ∧ 0 < d.impact) ∧
    "serviceAces" ∉
      ((analyzeGame exampleStats).recommendations.strengths.map StrengthRec.metric) := by
  refine ⟨by norm_num [analyzeGame, displayMetrics, exampleStats, jsPosOpt], rfl,
    by norm_num, ⟨_, rfl, exSA_pos⟩, sa_not_in_strengths⟩

/-- C5 counterexample: on the example input, `serviceAces` is not among the
strength metrics, contrary to the claim's final conjunct. -/
theorem analyzeGame_example_cex :
    "serviceAces" ∉
      ((analyzeGame exampleStats).recommendations.strengths.map StrengthRec.metric) :=
  sa_not_in_strengths

/-- A one-entry impacts mapping whose single (kills) impact is `-5`. -/
noncomputable def weakKillsImpacts : List (String × ImpactData) :=
  [("kills", ⟨0, 0, 0, -5, 0⟩)]

/-- With that input the single weakness is the kills record. -/
theorem weakKills_weaknesses :
    (generateRecommendations weakKillsImpacts).weaknesses
      = [⟨"kills", (-5 : ℝ), 0, 0, |(-5 : ℝ)|⟩] := by
  have h2 : (decide ((-5:ℝ) < -1)) = true := decide_eq_true (by norm_num)
  simp only [generateRecommendations, weakKillsImpacts, List.mergeSort_singleton,
    List.filter_cons, List.filter_nil, h2, if_true]
  rfl

/-- Witness for C10 at a concrete input whose top weakness is `kills`. -/
theorem insights_focus_header_no_bullets_witness :
    practiceFocusHeader ∈
      insightsLines exampleStats weakKillsImpacts (generateRecommendations weakKillsImpacts) :=
  (insights_focus_header_no_bullets exampleStats weakKillsImpacts _ _
    weakKills_weaknesses (Or.inl rfl)).1

/-- Witness for C4 at the concrete one-entry zero-impact mapping. -/
theorem insights_no_focus_block_witness :
    (generateRecommendations zeroImpacts).weaknesses = [] ∧
    (insightsLines exampleStats zeroImpacts (generateRecommendations zeroImpacts)).getLast?
      = some practiceFocusHeader :=
  ⟨(insights_no_focus_block exampleStats zeroImpacts (by
      intro p hp
      simp only [zeroImpacts, List.mem_singleton] at hp
      rw [hp]
      norm_num)).1,
   (insights_no_focus_block exampleStats zeroImpacts (by
      intro p hp
      simp only [zeroImpacts, List.mem_singleton] at hp
      rw [hp]
      norm_num)).2.2.2.1⟩
